import Mathlib

/-!
Verification of the OpenDingux SDL kmsdrm video backend
(src/video/kmsdrm). Each section shallowly embeds the C definitions the
claims refer to; theorems about the claims follow after all definitions.
-/

set_option maxRecDepth 4096

/-! ## Color catalog (SDL_kmsdrmcolordef.c) -/

/-- Embeds `struct drm_color_def` from SDL_kmsdrmcolordef.h / .c.
`four_cc` is kept as the format's name tag (the numeric fourcc encoding
is irrelevant to the claims). -/
structure drm_color_def where
  four_cc : String
  bpp : Nat
  r_mask : Nat
  g_mask : Nat
  b_mask : Nat
  a_mask : Nat
  r_bits : Nat
  g_bits : Nat
  b_bits : Nat
  a_bits : Nat
  r_shift : Nat
  g_shift : Nat
  b_shift : Nat
  a_shift : Nat
  h_factor : Nat
  deriving DecidableEq, Repr

/-- The channel-mask expression of the `MAKE_RGBA` macro in
SDL_kmsdrmcolordef.c line 9: `(0xFF >> (8-bits)) << sh`.
For `bits ≤ 8` this is exactly the C value.  For the 10-bit channels of the
30-bpp entries the C shift count `8-bits` is negative, which C leaves
undefined; Lean's truncated `8 - bits` clamps the count to 0 there.  The
theorem about claim C3 therefore also shows that no right or left shift of
the 8-bit pattern `0xFF` can equal the 10-bit mask, so the mask/bits
mismatch for those entries is independent of this modelling choice. -/
def MAKE_RGBA_mask (bits sh : Nat) : Nat := (0xFF >>> (8 - bits)) <<< sh

/-- Embeds the `MAKE_RGBA` macro (SDL_kmsdrmcolordef.c lines 6-12):
fourcc tag, bpp, the four channel masks, bit counts, shifts, h_factor 1. -/
def MAKE_RGBA (four_cc : String) (bpp rbits gbits bbits abits rsh gsh bsh ash : Nat) :
    drm_color_def :=
  { four_cc := four_cc, bpp := bpp
    r_mask := MAKE_RGBA_mask rbits rsh, g_mask := MAKE_RGBA_mask gbits gsh
    b_mask := MAKE_RGBA_mask bbits bsh, a_mask := MAKE_RGBA_mask abits ash
    r_bits := rbits, g_bits := gbits, b_bits := bbits, a_bits := abits
    r_shift := rsh, g_shift := gsh, b_shift := bsh, a_shift := ash
    h_factor := 1 }

def KMSDRM_COLOR_C8 : drm_color_def := MAKE_RGBA "C8" 8 8 8 8 0 0 0 0 0
def KMSDRM_COLOR_RGB888 : drm_color_def := MAKE_RGBA "RGB888" 24 8 8 8 0 16 8 0 0
def KMSDRM_COLOR_XRGB2101010 : drm_color_def := MAKE_RGBA "XRGB2101010" 30 10 10 10 0 20 10 0 0
def KMSDRM_COLOR_XRGB8888 : drm_color_def := MAKE_RGBA "XRGB8888" 32 8 8 8 0 16 8 0 0
def KMSDRM_COLOR_RGB565 : drm_color_def := MAKE_RGBA "RGB565" 16 5 6 5 0 11 5 0 0
def KMSDRM_COLOR_XRGB1555 : drm_color_def := MAKE_RGBA "XRGB1555" 16 5 5 5 0 10 5 0 0
def KMSDRM_COLOR_BGR888 : drm_color_def := MAKE_RGBA "BGR888" 24 8 8 8 0 0 8 16 0
def KMSDRM_COLOR_XBGR2101010 : drm_color_def := MAKE_RGBA "XBGR2101010" 30 10 10 10 0 0 10 20 0
def KMSDRM_COLOR_XBGR8888 : drm_color_def := MAKE_RGBA "XBGR8888" 32 8 8 8 0 0 8 16 0
def KMSDRM_COLOR_BGR565 : drm_color_def := MAKE_RGBA "BGR565" 16 5 6 5 0 0 5 11 0
def KMSDRM_COLOR_XBGR1555 : drm_color_def := MAKE_RGBA "XBGR1555" 16 5 5 5 0 0 5 10 0

/-- Embeds the `MAKE_YUV(YUV444, 8, 3)` entry (SDL_kmsdrmcolordef.c line 38):
all masks, bit counts and shifts zero, h_factor 3. -/
def KMSDRM_COLOR_YUV444 : drm_color_def :=
  { four_cc := "YUV444", bpp := 8
    r_mask := 0, g_mask := 0, b_mask := 0, a_mask := 0
    r_bits := 0, g_bits := 0, b_bits := 0, a_bits := 0
    r_shift := 0, g_shift := 0, b_shift := 0, a_shift := 0
    h_factor := 3 }

/-- The static catalog: every color definition in SDL_kmsdrmcolordef.c, in
file order. -/
def drm_color_catalog : List drm_color_def :=
  [KMSDRM_COLOR_C8, KMSDRM_COLOR_RGB888, KMSDRM_COLOR_XRGB2101010,
   KMSDRM_COLOR_XRGB8888, KMSDRM_COLOR_RGB565, KMSDRM_COLOR_XRGB1555,
   KMSDRM_COLOR_BGR888, KMSDRM_COLOR_XBGR2101010, KMSDRM_COLOR_XBGR8888,
   KMSDRM_COLOR_BGR565, KMSDRM_COLOR_XBGR1555, KMSDRM_COLOR_YUV444]

/-- R/G/B/A channel selector for a `drm_color_def`. -/
inductive ColorChannel | R | G | B | A
  deriving DecidableEq, Repr

def chBits (d : drm_color_def) : ColorChannel → Nat
  | .R => d.r_bits | .G => d.g_bits | .B => d.b_bits | .A => d.a_bits

def chMask (d : drm_color_def) : ColorChannel → Nat
  | .R => d.r_mask | .G => d.g_mask | .B => d.b_mask | .A => d.a_mask

def chShift (d : drm_color_def) : ColorChannel → Nat
  | .R => d.r_shift | .G => d.g_shift | .B => d.b_shift | .A => d.a_shift

/-! ## SetColors (SDL_kmsdrmvideo.c, KMSDRM_SetColors) -/

/-- The r/g/b byte components of an `SDL_Color` (the host structure passed
to `SetColors`; the `unused` byte is never read). -/
structure SDL_Color where
  r : Nat
  g : Nat
  b : Nat
  deriving DecidableEq, Repr

/-- One entry of `struct drm_color_lut` (16-bit red/green/blue; the
`reserved` field is always zero). -/
structure drm_color_lut where
  red : Nat
  green : Nat
  blue : Nat
  deriving DecidableEq, Repr

/-- Embeds the palette-update loop of `KMSDRM_SetColors`
(SDL_kmsdrmvideo.c lines 772-778):
`for (i = firstcolor; i < firstcolor + ncolors; i++)
   drm_palette[i] = { .red = colors[i].r << 8, ... };`
`colors` is the host-supplied array viewed as unbounded memory: the host
supplies `ncolors` entries at indices `0 ≤ j < ncolors`, so reads at
indices `≥ ncolors` are past the supplied colors.  Note the loop reads
`colors[i]`, not `colors[i - firstcolor]`. -/
def KMSDRM_SetColors_palette (palette : Nat → drm_color_lut) (firstcolor ncolors : Nat)
    (colors : Nat → SDL_Color) : Nat → drm_color_lut :=
  fun i =>
    if firstcolor ≤ i ∧ i < firstcolor + ncolors then
      { red := (colors i).r <<< 8, green := (colors i).g <<< 8, blue := (colors i).b <<< 8 }
    else palette i

/-- Gamma-LUT state owned by the backend: the palette, the published blob
id, and the blob ids destroyed so far. -/
structure GammaState where
  palette : Nat → drm_color_lut
  blob_id : Nat
  destroyed : List Nat

/-- Embeds `KMSDRM_SetColors` (SDL_kmsdrmvideo.c lines 767-792).
The palette is updated first; then a new gamma-LUT blob is created
(`blob_ok` is the outcome of `drmModeCreatePropertyBlob`, `new_blob_id`
the id it hands back).  On creation failure the function returns `1`
with the blob id unchanged; on success it swaps in the new blob id,
destroys the previous one, and returns `0`. -/
def KMSDRM_SetColors (g : GammaState) (firstcolor ncolors : Nat)
    (colors : Nat → SDL_Color) (blob_ok : Bool) (new_blob_id : Nat) :
    GammaState × Int :=
  let pal := KMSDRM_SetColors_palette g.palette firstcolor ncolors colors
  if blob_ok then
    ({ palette := pal, blob_id := new_blob_id, destroyed := g.blob_id :: g.destroyed }, 0)
  else
    ({ palette := pal, blob_id := g.blob_id, destroyed := g.destroyed }, 1)

/-! ## Surface flag bits -/

/-- Modelled from the spec: the surface flag bits come from the host
library's SDL_video.h, which is outside the kmsdrm backend sources; the
backend only tests them.  `SDL_DOUBLEBUF` is the classic SDL 1.2 value. -/
def SDL_DOUBLEBUF : Nat := 0x40000000

/-- Modelled from the spec: `SDL_TRIPLEBUF` implies `SDL_DOUBLEBUF`
(comment at SDL_kmsdrmvideo.c line 543), i.e. it is the double-buffer bit
plus one extra bit. -/
def SDL_TRIPLEBUF : Nat := SDL_DOUBLEBUF ||| 0x100

/-- Modelled from the spec: the BGR-swizzle flag bit tested by
`get_drm_color_def`; its exact value is outside the backend sources and
irrelevant to the claims. -/
def SDL_SWIZZLEBGR : Nat := 0x10000

/-- Modelled from the spec: the YUV flag bit tested by
`get_drm_color_def`; its exact value is outside the backend sources and
irrelevant to the claims. -/
def SDL_YUV444 : Nat := 0x20000

/-- Embeds `get_drm_color_def` (SDL_kmsdrmcolordef.c lines 41-70). -/
def get_drm_color_def (depth : Nat) (flags : Nat) : Option drm_color_def :=
  if flags &&& SDL_YUV444 ≠ 0 then
    match depth with
    | 8 => some KMSDRM_COLOR_YUV444
    | 24 => some KMSDRM_COLOR_YUV444
    | _ => none
  else if flags &&& SDL_SWIZZLEBGR ≠ 0 then
    match depth with
    | 16 => some KMSDRM_COLOR_BGR565
    | 15 => some KMSDRM_COLOR_XBGR1555
    | 24 => some KMSDRM_COLOR_BGR888
    | 30 => some KMSDRM_COLOR_XBGR2101010
    | 32 => some KMSDRM_COLOR_XBGR8888
    | _ => none
  else
    match depth with
    | 8 => some KMSDRM_COLOR_C8
    | 16 => some KMSDRM_COLOR_RGB565
    | 15 => some KMSDRM_COLOR_XRGB1555
    | 24 => some KMSDRM_COLOR_RGB888
    | 30 => some KMSDRM_COLOR_XRGB2101010
    | 32 => some KMSDRM_COLOR_XRGB8888
    | _ => none

/-! ## Connector modes and pipes -/

/-- The fields of `drmModeModeInfo` the backend reads. -/
structure ModeInfo where
  clock : Nat
  hdisplay : Nat
  vdisplay : Nat
  htotal : Nat
  vtotal : Nat
  deriving DecidableEq, Repr

/-- Embeds `struct drm_pipe` (SDL_kmsdrmvideo.h lines 61-72): the four
object ids, the owned copy of the connector's mode list, and the two
aspect-correction factors.  The float `nearbyintf` derivation of the
factors in `save_drm_pipe` is not claimed; the factors are taken as the
stored pipe fields. -/
structure drm_pipe where
  plane : Nat
  crtc : Nat
  encoder : Nat
  connector : Nat
  modes : List ModeInfo
  factor_w : Nat
  factor_h : Nat
  deriving DecidableEq, Repr

/-! ## Video-mode registration (SDL_kmsdrmmisc.c) -/

/-- Embeds `KMSDRM_LookupVidMode` (SDL_kmsdrmmisc.c lines 58-67), reduced
to the `≥ 0` test its caller makes: is `(w, h)` already registered? -/
def KMSDRM_LookupVidMode (modes : List (Nat × Nat)) (w h : Nat) : Bool :=
  modes.any (fun m => m.1 == w && m.2 == h)

/-- Embeds `KMSDRM_RegisterVidMode` (SDL_kmsdrmmisc.c lines 69-83):
append `(w, h)` at the tail unless it is already present. -/
def KMSDRM_RegisterVidMode (modes : List (Nat × Nat)) (w h : Nat) : List (Nat × Nat) :=
  if KMSDRM_LookupVidMode modes w h then modes else modes ++ [(w, h)]

/-- Embeds the mode-registration loop of `save_drm_pipe`
(SDL_kmsdrmmisc.c lines 113-126): for every connector mode register
`(hdisplay, vdisplay)`, and when either factor differs from 1 also the
corrected resolution `(hdisplay/factor_w, vdisplay/factor_h)`. -/
def save_drm_pipe_modes (modes0 : List (Nat × Nat)) (conn_modes : List ModeInfo)
    (factor_w factor_h : Nat) : List (Nat × Nat) :=
  match conn_modes with
  | [] => modes0
  | m :: rest =>
    let acc := KMSDRM_RegisterVidMode modes0 m.hdisplay m.vdisplay
    let acc :=
      if factor_w != 1 || factor_h != 1 then
        KMSDRM_RegisterVidMode acc (m.hdisplay / factor_w) (m.vdisplay / factor_h)
      else acc
    save_drm_pipe_modes acc rest factor_w factor_h

/-- The registration loops of successive `save_drm_pipe` calls, starting
from the accumulated list `acc`. -/
def KMSDRM_vid_modes_from (acc : List (Nat × Nat)) : List drm_pipe → List (Nat × Nat)
  | [] => acc
  | p :: rest =>
    KMSDRM_vid_modes_from (save_drm_pipe_modes acc p.modes p.factor_w p.factor_h) rest

/-- The synthesized video-mode list after pipe discovery: every call to
`save_drm_pipe` runs its registration loop, starting from the empty list
set up by `KMSDRM_VideoInit` (SDL_kmsdrmvideo.c lines 152-155). -/
def KMSDRM_vid_modes (pipes : List drm_pipe) : List (Nat × Nat) :=
  KMSDRM_vid_modes_from [] pipes

/-! ## Pipe discovery (KMSDRM_VideoInit, SDL_kmsdrmvideo.c lines 157-186) -/

/-- The fields of `drmModePlane` the discovery loop reads, plus the
plane's cached `type` property value (which the loop never reads — that
is what claim C4 is about). -/
structure drm_plane_obj where
  plane_id : Nat
  possible_crtcs : Nat
  plane_type : Nat
  deriving DecidableEq, Repr

structure drm_crtc_obj where
  crtc_id : Nat
  deriving DecidableEq, Repr

structure drm_encoder_obj where
  encoder_id : Nat
  possible_crtcs : Nat
  deriving DecidableEq, Repr

structure drm_connector_obj where
  connector_id : Nat
  encoder_id : Nat
  connected : Bool
  count_modes : Nat
  deriving DecidableEq, Repr

/-- The DRM resource lists `drmModeGetResources` /
`drmModeGetPlaneResources` hand back (the live objects; a `NULL` from a
`drmModeGet*` call simply does not appear in its list). -/
structure DrmResources where
  planes : List drm_plane_obj
  crtcs : List drm_crtc_obj
  encoders : List drm_encoder_obj
  connectors : List drm_connector_obj
  deriving DecidableEq, Repr

/-- Modelled from the spec: the kernel's overlay value for a plane's
`type` property.  The discovery loop in the sources never consults it. -/
def DRM_PLANE_TYPE_OVERLAY : Nat := 0

/-- One registered pipe: the four ids `save_drm_pipe` stores. -/
structure SavedPipe where
  plane : Nat
  crtc : Nat
  encoder : Nat
  connector : Nat
  deriving DecidableEq, Repr

/-- Embeds the quadruple filter of the discovery loop
(SDL_kmsdrmvideo.c lines 169-174): the plane's and the encoder's
`possible_crtcs` masks both contain the CRTC's index bit, the connector
is bound to this encoder, is connected, and has at least one mode. -/
def pipe_condition (p : drm_plane_obj) (crtc_idx : Nat) (e : drm_encoder_obj)
    (c : drm_connector_obj) : Bool :=
  p.possible_crtcs.testBit crtc_idx && e.possible_crtcs.testBit crtc_idx &&
    (c.encoder_id == e.encoder_id) && c.connected && (0 < c.count_modes)

/-- Embeds the pipe-discovery loops of `KMSDRM_VideoInit`
(SDL_kmsdrmvideo.c lines 157-186): for every plane, iterate
CRTCs × encoders × connectors and register (append, as `save_drm_pipe`
does) every quadruple passing `pipe_condition`. -/
def KMSDRM_discover_pipes (res : DrmResources) : List SavedPipe :=
  res.planes.flatMap (fun p =>
    (res.crtcs.enum).flatMap (fun ci =>
      res.encoders.flatMap (fun e =>
        res.connectors.filterMap (fun c =>
          if pipe_condition p ci.1 e c then
            some { plane := p.plane_id, crtc := ci.2.crtc_id
                   encoder := e.encoder_id, connector := c.connector_id }
          else none))))

/-- `res` with every plane's cached `type` property value replaced
according to `f`; all fields the discovery loop reads are untouched. -/
def retypePlanes (res : DrmResources) (f : drm_plane_obj → Nat) : DrmResources :=
  { res with planes := res.planes.map (fun p => { p with plane_type := f p }) }

/-! ## FlipHWSurface (SDL_kmsdrmvideo.c lines 664-706) -/

/-- The state `KMSDRM_FlipHWSurface` reads and writes: whether a pipe is
active, the surface's flags, the three buffer indices, the index of the
buffer whose mapping `surface->pixels` holds, and the net number of
`drm_triplebuf_mutex` locks the calling thread holds (SDL 1.2 mutexes are
recursive, so a relock by the same thread never blocks; in single- and
double-buffer mode the flip worker does not exist, so nobody else ever
holds the mutex). -/
structure FlipState where
  active_pipe : Bool
  surface_flags : Nat
  front : Nat
  back : Nat
  queued : Nat
  pixels : Nat
  mutex_locks : Nat
  deriving DecidableEq, Repr

/-- Embeds `KMSDRM_FlipHWSurface`.  `commit_ok` is the outcome of the
`drmModeAtomicCommit` issued in the double-buffer branch; a failure is
only logged (lines 685-686).  The result's second component is the C
return value, the third the number of atomic commits the call issued.
Without an active pipe the call returns `-2` untouched (line 667).
In the double-buffer branch (lines 670-688) it duplicates the request
template and commits; otherwise it locks the mutex (line 690).  Both
branches then swap front and back (lines 694-696) and point
`surface->pixels` at the new back buffer (line 698); the triple-buffer
branch signals the worker and unlocks (lines 700-703); the call returns
`1` (line 705). -/
def KMSDRM_FlipHWSurface (s : FlipState) (commit_ok : Bool) : FlipState × Int × Nat :=
  if !s.active_pipe then (s, -2, 0)
  else
    let isDouble := s.surface_flags &&& SDL_TRIPLEBUF == SDL_DOUBLEBUF
    let isTriple := s.surface_flags &&& SDL_TRIPLEBUF == SDL_TRIPLEBUF
    let commits := if isDouble then 1 else 0
    let s1 := if isDouble then s else { s with mutex_locks := s.mutex_locks + 1 }
    let s2 := { s1 with front := s1.back, back := s1.front, pixels := s1.front }
    let s3 := if isTriple then { s2 with mutex_locks := s2.mutex_locks - 1 } else s2
    -- `commit_ok` influences only the logged message, never the result.
    let _ := commit_ok
    (s3, 1, commits)

/-- A sequence of `FlipHWSurface` calls; `outcomes` supplies the commit
outcome for any call that commits.  Returns the final state, the list of
C return values, and the total number of atomic commits issued. -/
def KMSDRM_FlipSeq (s : FlipState) : List Bool → FlipState × List Int × Nat
  | [] => (s, [], 0)
  | ok :: rest =>
    let r := KMSDRM_FlipHWSurface s ok
    let t := KMSDRM_FlipSeq r.1 rest
    (t.1, r.2.1 :: t.2.1, r.2.2 + t.2.2)

/-! ## The three present indices (claim C8) -/

/-- The triple of buffer indices `front`, `back`, `queued`. -/
structure BufIndices where
  front : Nat
  back : Nat
  queued : Nat
  deriving DecidableEq, Repr

/-- The indices as `KMSDRM_SetVideoMode` resets them
(SDL_kmsdrmvideo.c lines 407-410): front 0, back 1, queued 2. -/
def svmInitIndices : BufIndices := { front := 0, back := 1, queued := 2 }

/-- The front/back swap every `KMSDRM_FlipHWSurface` performs
(SDL_kmsdrmvideo.c lines 693-696). -/
def flipSwap (s : BufIndices) : BufIndices :=
  { front := s.back, back := s.front, queued := s.queued }

/-- The queued/front swap of one triple-buffer worker iteration
(SDL_kmsdrmvideo.c lines 608-611): `page = queued; queued = front;
front = page`. -/
def workerSwap (s : BufIndices) : BufIndices :=
  { front := s.queued, back := s.back, queued := s.front }

/-- An observable index transition: a `FlipHWSurface` call or one worker
iteration. -/
inductive PresentOp | flip | worker
  deriving DecidableEq, Repr

def applyPresentOp (s : BufIndices) : PresentOp → BufIndices
  | .flip => flipSwap s
  | .worker => workerSwap s

/-- The indices after a sequence of flips and worker iterations starting
from the `SetVideoMode` reset. -/
def runPresentOps (ops : List PresentOp) : BufIndices :=
  ops.foldl applyPresentOp svmInitIndices

/-- The six permutations of `(0, 1, 2)`. -/
def permsOf012 : List BufIndices :=
  [⟨0, 1, 2⟩, ⟨0, 2, 1⟩, ⟨1, 0, 2⟩, ⟨1, 2, 0⟩, ⟨2, 0, 1⟩, ⟨2, 1, 0⟩]

/-! ## SetVideoMode (SDL_kmsdrmvideo.c lines 378-571) -/

/-- The outcomes a `KMSDRM_SetVideoMode` call can end in, one per exit
path of the C function.  Everything except `success` returns `NULL`. -/
inductive SvmOutcome
  /-- the successful return at line 557 -/
  | success
  /-- `setvidmode_fail` from a `NULL` color definition (line 416) -/
  | badFormat
  /-- `setvidmode_fail_fbs` from a failed `KMSDRM_CreateFramebuffer` (line 427) -/
  | bufferFail
  /-- `setvidmode_fail_req` from a failed `attempt_add_prop` (lines 456-464) -/
  | addPropFail
  /-- `setvidmode_fail_req2` from a failed `attempt_add_prop2` (lines 470-477) -/
  | addProp2Fail
  /-- `setvidmode_fail_req2` from a failed `KMSDRM_SetCrtcParams` (line 484) -/
  | crtcParamsFail
  /-- `setvidmode_fail_fbs` after the pipe loop exhausted (line 514) -/
  | noPipe
  /-- `setvidmode_fail_fbs` from a failed `SDL_ReallocFormat` (line 521) -/
  | reallocFail
  deriving DecidableEq, Repr

/-- The outcomes of the external calls a `KMSDRM_SetVideoMode` run makes.
`propFound obj name` says whether the property cache holds property
`name` for object `obj` (with `optional = 0`, `add_property` succeeds
exactly when the property is found: a `drmModeAtomicAddProperty` failure
is only logged, SDL_kmsdrmmisc.c lines 211-214).  `createFbOk i` is the
outcome of `KMSDRM_CreateFramebuffer` for slot `i`, `commitOk k` the
outcome of the atomic commit for the pipe at position `k`, `reallocOk`
the outcome of `SDL_ReallocFormat`, and `scaling_mode` the current
`drm_scaling_mode` (0 fullscreen, 1 aspect, 2 integer, 3 the `END`
sentinel). -/
structure SvmWorld where
  pipes : List drm_pipe
  propFound : Nat → String → Bool
  createFbOk : Nat → Bool
  commitOk : Nat → Bool
  reallocOk : Bool
  scaling_mode : Nat

/-- Embeds `add_property` (SDL_kmsdrmmisc.c lines 261-272) at the
`optional = 0` call sites of `KMSDRM_SetVideoMode`: it fails exactly when
the named property is not in the cache for the object. -/
def add_property (w : SvmWorld) (obj_id : Nat) (name : String) : Bool :=
  w.propFound obj_id name

/-- The per-call state `KMSDRM_SetVideoMode` manipulates:
which of the three buffer slots currently hold a created dumb
buffer/framebuffer, whether the mode property blob is live, the active
pipe, whether the cached atomic-request template `this->hidden->drm_req`
is live, and the three buffer indices. -/
structure SvmState where
  buffers : List Bool
  mode_blob : Bool
  active_pipe : Option drm_pipe
  drm_req : Bool
  front : Nat
  back : Nat
  queued : Nat
  deriving DecidableEq, Repr

/-- `KMSDRM_ClearFramebuffers` (SDL_kmsdrmvideo.c lines 306-316): every
slot is released. -/
def clearedBuffers : List Bool := [false, false, false]

/-- Embeds `KMSDRM_SetCrtcParams` (SDL_kmsdrmvideo.c lines 323-376),
reduced to its success/failure outcome (`true` = the C `return 1`): it
fails when the scaling mode is the `END` sentinel, when one of the
`CRTC_{X,Y,W,H}` plane properties is missing, or — at 8 bpp — when the
CRTC lacks `GAMMA_LUT`. -/
def KMSDRM_SetCrtcParams (w : SvmWorld) (plane_id crtc_id bpp : Nat) : Bool :=
  if w.scaling_mode == 3 then true
  else if !add_property w plane_id "CRTC_X" then true
  else if !add_property w plane_id "CRTC_Y" then true
  else if !add_property w plane_id "CRTC_W" then true
  else if !add_property w plane_id "CRTC_H" then true
  else if bpp == 8 && !add_property w crtc_id "GAMMA_LUT" then true
  else false

/-- The framebuffer-creation loop (SDL_kmsdrmvideo.c lines 425-429):
create slots `0..n_buf-1`; `none` if some creation fails (the slots
created before the failure are then torn down by the
`setvidmode_fail_fbs` path, so they are not observable). -/
def createFramebuffers (w : SvmWorld) (n_buf : Nat) (bufs : List Bool) : Option (List Bool) :=
  (List.range n_buf).foldl
    (fun acc i => acc.bind (fun bs => if w.createFbOk i then some (bs.set i true) else none))
    (some bufs)

/-- The `disable the other primary planes of this CRTC` pass
(SDL_kmsdrmvideo.c lines 454-459): for every registered pipe other than
the current one (position `k`) sharing its CRTC, add `FB_ID` and
`CRTC_ID`; `other != pipe` compares list positions, as the C pointer
comparison does. -/
def disableOthersOk (w : SvmWorld) (k : Nat) (p : drm_pipe) : Bool :=
  (w.pipes.enum.filter (fun e => e.1 != k && e.2.crtc == p.crtc)).all
    (fun e => add_property w e.2.plane "FB_ID" && add_property w e.2.plane "CRTC_ID")

/-- The modeset retry loop (SDL_kmsdrmvideo.c lines 441-509) over the
remaining pipes; `k` is the position of the head of `rest` in the full
registry.  Returns the state at loop exit and `none` when a commit
succeeded (the C `break`), or the failure outcome when a goto left the
function (the goto chains end in `KMSDRM_ClearFramebuffers`, so those
states carry `clearedBuffers`). -/
def svmLoop (w : SvmWorld) (bpp : Nat) : List drm_pipe → Nat → SvmState →
    SvmState × Option SvmOutcome
  | [], _, st =>
    -- loop exhausted: `!drm_active_pipe` holds, goto setvidmode_fail_fbs
    ({ st with buffers := clearedBuffers }, some .noPipe)
  | p :: rest, k, st =>
    -- line 445: drmModeCreatePropertyBlob(..., &drm_mode_blob_id)
    let st := { st with mode_blob := true }
    if !(disableOthersOk w k p &&
         add_property w p.connector "CRTC_ID" &&
         add_property w p.crtc "MODE_ID" &&
         add_property w p.crtc "ACTIVE") then
      ({ st with mode_blob := false, buffers := clearedBuffers }, some .addPropFail)
    else
      -- line 466: this->hidden->drm_req = req; req = drmModeAtomicDuplicate(req)
      let st := { st with drm_req := true }
      if !(add_property w p.plane "FB_ID" &&
           add_property w p.plane "CRTC_ID" &&
           add_property w p.plane "SRC_X" &&
           add_property w p.plane "SRC_Y" &&
           add_property w p.plane "SRC_W" &&
           add_property w p.plane "SRC_H") then
        ({ st with drm_req := false, mode_blob := false, buffers := clearedBuffers },
         some .addProp2Fail)
      else
        -- line 479: drm_active_pipe = pipe
        let st := { st with active_pipe := some p }
        if KMSDRM_SetCrtcParams w p.plane p.crtc bpp then
          -- goto setvidmode_fail_req2: frees the template but leaves drm_active_pipe set
          ({ st with drm_req := false, mode_blob := false, buffers := clearedBuffers },
           some .crtcParamsFail)
        else if w.commitOk k then
          (st, none)
        else
          -- lines 499-508: free template, clear active pipe, destroy blob, retry
          svmLoop w bpp rest (k + 1)
            { st with drm_req := false, active_pipe := none, mode_blob := false }

/-- Embeds `KMSDRM_SetVideoMode`.  Entry cleanup (lines 385-395) runs
when a pipe is active: clear the buffers, destroy the previous mode
blob, free the request template, null the active pipe.  Then the indices
are reset (lines 407-410), a color definition is selected (line 413),
`n_buf` buffers are created (lines 420-429), the retry loop runs, and on
a committed pipe `SDL_ReallocFormat` is attempted (line 518; its failure
jumps to `setvidmode_fail_fbs`, which only clears the framebuffers). -/
def KMSDRM_SetVideoMode_body (st2 : SvmState) (w : SvmWorld) (bpp flags : Nat) :
    SvmState × SvmOutcome :=
  -- everything after the index reset: format selection, buffer creation,
  -- the retry loop, and the post-commit surface rebuild

  match get_drm_color_def bpp flags with
  | none => (st2, .badFormat)
  | some _ =>
    let n_buf : Nat :=
      if flags &&& SDL_TRIPLEBUF == SDL_TRIPLEBUF then 3
      else if flags &&& SDL_TRIPLEBUF == SDL_DOUBLEBUF then 2
      else 1
    match createFramebuffers w n_buf st2.buffers with
    | none => ({ st2 with buffers := clearedBuffers }, .bufferFail)
    | some bufs =>
      match svmLoop w bpp w.pipes 0 { st2 with buffers := bufs } with
      | (st, some o) => (st, o)
      | (st, none) =>
        if w.reallocOk then (st, .success)
        else ({ st with buffers := clearedBuffers }, .reallocFail)

def KMSDRM_SetVideoMode (st0 : SvmState) (w : SvmWorld) (bpp flags : Nat) :
    SvmState × SvmOutcome :=
  let st1 :=
    if st0.active_pipe.isSome then
      { st0 with active_pipe := none, buffers := clearedBuffers,
                 mode_blob := false, drm_req := false }
    else st0
  KMSDRM_SetVideoMode_body { st1 with front := 0, back := 1, queued := 2 } w bpp flags

/-! ## Concrete instances used by counterexamples and witnesses -/

/-- A `SvmState` as `KMSDRM_VideoInit` leaves it: no buffers, no blob, no
active pipe, no request template. -/
def stClean : SvmState :=
  { buffers := [false, false, false], mode_blob := false, active_pipe := none
    drm_req := false, front := 0, back := 0, queued := 0 }

/-- A registered pipe with one 60 Hz mode. -/
def samplePipe : drm_pipe :=
  { plane := 11, crtc := 21, encoder := 31, connector := 41
    modes := [⟨6000, 320, 240, 400, 250⟩], factor_w := 1, factor_h := 1 }

/-- A world where every external call succeeds except the final
`SDL_ReallocFormat`. -/
def wReallocFail : SvmWorld :=
  { pipes := [samplePipe], propFound := fun _ _ => true, createFbOk := fun _ => true
    commitOk := fun _ => true, reallocOk := false, scaling_mode := 0 }

/-- A world where every atomic commit fails, exhausting the pipe list. -/
def wNoCommit : SvmWorld :=
  { pipes := [samplePipe], propFound := fun _ _ => true, createFbOk := fun _ => true
    commitOk := fun _ => false, reallocOk := true, scaling_mode := 0 }

/-- A resource set whose only plane is an overlay plane that satisfies
the quadruple filter. -/
def overlayRes : DrmResources :=
  { planes := [{ plane_id := 77, possible_crtcs := 1, plane_type := DRM_PLANE_TYPE_OVERLAY }]
    crtcs := [{ crtc_id := 5 }]
    encoders := [{ encoder_id := 9, possible_crtcs := 1 }]
    connectors := [{ connector_id := 13, encoder_id := 9, connected := true, count_modes := 1 }] }

/-- A pipe whose connector lists a small mode before a large one. -/
def c7pipe : drm_pipe :=
  { plane := 11, crtc := 21, encoder := 31, connector := 41
    modes := [⟨0, 320, 240, 0, 0⟩, ⟨0, 640, 480, 0, 0⟩], factor_w := 1, factor_h := 1 }

/-- A pipe with a non-square-pixel factor, for the C7 witness. -/
def c7pipeFactor : drm_pipe :=
  { plane := 11, crtc := 21, encoder := 31, connector := 41
    modes := [⟨0, 640, 480, 0, 0⟩], factor_w := 2, factor_h := 1 }

/-- A flip state in single-buffer mode with an active pipe. -/
def flipSingleState : FlipState :=
  { active_pipe := true, surface_flags := 0, front := 0, back := 1, queued := 2
    pixels := 0, mutex_locks := 0 }

/-- A flip state in double-buffer mode with an active pipe. -/
def flipDoubleState : FlipState :=
  { active_pipe := true, surface_flags := SDL_DOUBLEBUF, front := 0, back := 1, queued := 2
    pixels := 0, mutex_locks := 0 }

/-! ## Theorems -/

/-- C1: the spec says `SetColors` returns 0 when creating the gamma-LUT
blob fails and 1 when it succeeds.  The code does the opposite: it
returns `1` right after logging the blob-creation failure (line 783) and
`0` on the success path (line 791).  This theorem evaluates the code at
both outcomes. -/
theorem KMSDRM_SetColors_return_code_bug :
    (KMSDRM_SetColors ⟨fun _ => ⟨0, 0, 0⟩, 7, []⟩ 0 1 (fun _ => ⟨1, 2, 3⟩) true 9).2 = 0 ∧
    (KMSDRM_SetColors ⟨fun _ => ⟨0, 0, 0⟩, 7, []⟩ 0 1 (fun _ => ⟨1, 2, 3⟩) false 9).2 = 1 :=
  ⟨rfl, rfl⟩

/-- C6: the palette-update loop reads `colors[i]` for `i` in
`[first, first+n)` instead of `colors[i - first]`, so for `first = 1`,
`n = 1` entry 1 receives whatever lies one past the single supplied
color, not the supplied color itself; entries outside the range stay
unchanged.  (For `first = 0` the two indexings coincide, which is why
`SetColors(0,256,palette)` behaves as specified.) -/
theorem KMSDRM_SetColors_index_code_bug :
    (KMSDRM_SetColors_palette (fun _ => ⟨0, 0, 0⟩) 1 1
        (fun i => if i = 0 then ⟨10, 20, 30⟩ else ⟨1, 2, 3⟩)) 1 =
      ⟨1 <<< 8, 2 <<< 8, 3 <<< 8⟩ ∧
    (⟨1 <<< 8, 2 <<< 8, 3 <<< 8⟩ : drm_color_lut) ≠ ⟨10 <<< 8, 20 <<< 8, 30 <<< 8⟩ ∧
    (KMSDRM_SetColors_palette (fun _ => ⟨0, 0, 0⟩) 1 1
        (fun i => if i = 0 then ⟨10, 20, 30⟩ else ⟨1, 2, 3⟩)) 0 = ⟨0, 0, 0⟩ ∧
    (KMSDRM_SetColors_palette (fun _ => ⟨0, 0, 0⟩) 0 1
        (fun i => if i = 0 then ⟨10, 20, 30⟩ else ⟨1, 2, 3⟩)) 0 =
      ⟨10 <<< 8, 20 <<< 8, 30 <<< 8⟩ := by
  refine ⟨by decide, by decide, by decide, by decide⟩

/-- C3: `bits + shift ≤ bpp` holds throughout the catalog, and for every
channel with at most 8 bits the mask equals `((1<<bits)-1)<<shift`; but
for the 10-bit channels of the 30-bpp entries the macro's
`(0xFF >> (8-bits)) << shift` cannot equal `((1<<bits)-1)<<shift`: the
shift count `8-10` is negative (undefined in C), and whichever way that
shift is resolved — any right shift or any left shift of the 8-bit
pattern `0xFF` — the result never equals the 10-bit mask
`0x3FF << 20`. -/
theorem KMSDRM_mask_invariant_code_bug :
    (KMSDRM_COLOR_XRGB2101010 ∈ drm_color_catalog ∧
     KMSDRM_COLOR_XRGB2101010.r_bits = 10 ∧
     KMSDRM_COLOR_XRGB2101010.r_shift = 20 ∧
     KMSDRM_COLOR_XRGB2101010.bpp = 30 ∧
     KMSDRM_COLOR_XRGB2101010.r_mask ≠ ((1 <<< 10) - 1) <<< 20) ∧
    (∀ k : Nat, (0xFF >>> k) <<< 20 ≠ ((1 <<< 10) - 1) <<< 20) ∧
    (∀ k : Nat, (0xFF <<< k) <<< 20 ≠ ((1 <<< 10) - 1) <<< 20) ∧
    (drm_color_catalog.all (fun d =>
      [ColorChannel.R, .G, .B, .A].all (fun ch =>
        decide (chBits d ch + chShift d ch ≤ d.bpp) &&
        (!decide (chBits d ch ≤ 8) ||
          (chMask d ch == ((1 <<< chBits d ch) - 1) <<< chShift d ch))))) = true := by
  refine ⟨by decide, ?_, ?_, by decide⟩
  · intro k h
    simp only [Nat.shiftLeft_eq] at h
    have h2 := Nat.eq_of_mul_eq_mul_right (by norm_num) h
    have h3 : 0xFF >>> k ≤ 0xFF := by
      rw [Nat.shiftRight_eq_div_pow]
      exact Nat.div_le_self _ _
    norm_num at h2 h3
    omega
  · intro k h
    simp only [Nat.shiftLeft_eq] at h
    have h2 := Nat.eq_of_mul_eq_mul_right (by norm_num) h
    norm_num at h2
    rcases k with _ | k
    · norm_num at h2
    · rw [pow_succ] at h2
      omega

/-- C2 counterexample: with one registered pipe, every property found,
buffer creation and the atomic commit succeeding, and `SDL_ReallocFormat`
failing, `KMSDRM_SetVideoMode` returns `NULL` (outcome `reallocFail`)
after a successful commit — yet the active-pipe pointer is still set, the
request template is still live and the mode blob is not destroyed. -/
theorem KMSDRM_SetVideoMode_unwind_counterexample :
    (KMSDRM_SetVideoMode stClean wReallocFail 16 0).2 ≠ SvmOutcome.success ∧
    (KMSDRM_SetVideoMode stClean wReallocFail 16 0).1.active_pipe ≠ none ∧
    (KMSDRM_SetVideoMode stClean wReallocFail 16 0).1.drm_req = true ∧
    (KMSDRM_SetVideoMode stClean wReallocFail 16 0).1.mode_blob = true := by
  decide

/-- C4 counterexample: `overlayRes` registers a pipe whose plane is an
overlay plane, so the claim "for every pipe in the registry the plane
member is not an overlay plane" is false: the discovery loop never
consults the plane's `type` property. -/
theorem KMSDRM_overlay_skip_counterexample :
    ¬ (∀ q ∈ KMSDRM_discover_pipes overlayRes, ∀ p ∈ overlayRes.planes,
        p.plane_id = q.plane → p.plane_type ≠ DRM_PLANE_TYPE_OVERLAY) := by
  decide

/-- C7 counterexample: a connector listing a small mode before a large
one yields a registry in discovery order, not ordered descending by
pixel count — `KMSDRM_RegisterVidMode` only appends, nothing sorts. -/
theorem KMSDRM_vid_modes_order_counterexample :
    KMSDRM_vid_modes [c7pipe] = [(320, 240), (640, 480)] ∧
    ¬ (KMSDRM_vid_modes [c7pipe]).Pairwise (fun a b => b.1 * b.2 ≤ a.1 * a.2) := by
  refine ⟨by decide, by decide⟩

/-- Helper: a flip or worker swap sends a permutation of `(0,1,2)` to a
permutation of `(0,1,2)`. -/
theorem applyPresentOp_mem_perms (s : BufIndices) (op : PresentOp) (hs : s ∈ permsOf012) :
    applyPresentOp s op ∈ permsOf012 := by
  fin_cases hs <;> cases op <;> decide

/-- Helper: iterated swaps stay inside the permutations of `(0,1,2)`. -/
theorem foldl_applyPresentOp_mem (ops : List PresentOp) :
    ∀ s ∈ permsOf012, ops.foldl applyPresentOp s ∈ permsOf012 := by
  induction ops with
  | nil => intro s hs; simpa using hs
  | cons op rest ih =>
    intro s hs
    exact ih _ (applyPresentOp_mem_perms s op hs)

/-- Helper: the components of a permutation of `(0,1,2)` are pairwise
distinct. -/
theorem mem_permsOf012_distinct (s : BufIndices) (hs : s ∈ permsOf012) :
    s.front ≠ s.back ∧ s.front ≠ s.queued ∧ s.back ≠ s.queued := by
  fin_cases hs <;> decide

/-- C8: the three indices start as `(front, back, queued) = (0, 1, 2)`
after `SetVideoMode`, and under any sequence of `FlipHWSurface`
front/back swaps and triple-buffer-worker queued/front swaps they remain
a permutation of `{0, 1, 2}` — in particular no two of them are ever
equal. -/
theorem KMSDRM_present_indices_permutation (ops : List PresentOp) :
    runPresentOps [] = ⟨0, 1, 2⟩ ∧
    runPresentOps ops ∈ permsOf012 ∧
    (runPresentOps ops).front ≠ (runPresentOps ops).back ∧
    (runPresentOps ops).front ≠ (runPresentOps ops).queued ∧
    (runPresentOps ops).back ≠ (runPresentOps ops).queued := by
  have hmem : runPresentOps ops ∈ permsOf012 :=
    foldl_applyPresentOp_mem ops svmInitIndices (by decide)
  have hd := mem_permsOf012_distinct _ hmem
  exact ⟨rfl, hmem, hd.1, hd.2.1, hd.2.2⟩

/-- C10: in double-buffer mode with an active pipe, `FlipHWSurface`
returns 1 and swaps front/back even when the atomic commit fails — the
whole call result is independent of the commit outcome (the error is
only logged), and exactly one commit is issued. -/
theorem KMSDRM_flip_double_commit_failure_ignored (s : FlipState)
    (hp : s.active_pipe = true) (hd : s.surface_flags &&& SDL_TRIPLEBUF = SDL_DOUBLEBUF) :
    (KMSDRM_FlipHWSurface s false).2.1 = 1 ∧
    (KMSDRM_FlipHWSurface s false).2.2 = 1 ∧
    (KMSDRM_FlipHWSurface s false).1.front = s.back ∧
    (KMSDRM_FlipHWSurface s false).1.back = s.front ∧
    KMSDRM_FlipHWSurface s false = KMSDRM_FlipHWSurface s true := by
  have hd' : s.surface_flags &&& 1073742080 = 1073741824 := by
    simpa [SDL_TRIPLEBUF, SDL_DOUBLEBUF] using hd
  simp [KMSDRM_FlipHWSurface, hp, SDL_DOUBLEBUF, SDL_TRIPLEBUF, hd']

/-- Witness for C10 at a concrete double-buffered state. -/
theorem KMSDRM_flip_double_commit_failure_ignored_witness :
    flipDoubleState.active_pipe = true ∧
    flipDoubleState.surface_flags &&& SDL_TRIPLEBUF = SDL_DOUBLEBUF ∧
    ((KMSDRM_FlipHWSurface flipDoubleState false).2.1 = 1 ∧
     (KMSDRM_FlipHWSurface flipDoubleState false).2.2 = 1 ∧
     (KMSDRM_FlipHWSurface flipDoubleState false).1.front = flipDoubleState.back ∧
     (KMSDRM_FlipHWSurface flipDoubleState false).1.back = flipDoubleState.front ∧
     KMSDRM_FlipHWSurface flipDoubleState false = KMSDRM_FlipHWSurface flipDoubleState true) :=
  ⟨rfl, by decide,
   KMSDRM_flip_double_commit_failure_ignored flipDoubleState rfl (by decide)⟩

/-- Helper: one single-buffer flip is a pure swap — no commit, return 1,
front/back exchanged, the mutex lock taken in the non-double branch held
(SDL mutexes are recursive and no worker thread exists here, so the lock
never blocks). -/
theorem flip_single_buffer_step (s : FlipState) (ok : Bool)
    (hp : s.active_pipe = true) (hs : s.surface_flags &&& SDL_TRIPLEBUF = 0) :
    KMSDRM_FlipHWSurface s ok =
      ({ s with front := s.back, back := s.front, pixels := s.front,
                mutex_locks := s.mutex_locks + 1 }, 1, 0) := by
  have hs' : s.surface_flags &&& 1073742080 = 0 := by
    simpa [SDL_TRIPLEBUF, SDL_DOUBLEBUF] using hs
  simp [KMSDRM_FlipHWSurface, hp, SDL_DOUBLEBUF, SDL_TRIPLEBUF, hs']

/-- C5: with an active pipe and a surface carrying neither the
double-buffer nor the triple-buffer flag, every call in a sequence of
`FlipHWSurface` calls returns 1, the whole sequence issues zero atomic
commits, and only the front/back indices move (swapping once per call);
the queued index, flags and pipe are untouched. -/
theorem KMSDRM_flip_single_buffer_pure_swap (s : FlipState) (outcomes : List Bool)
    (hp : s.active_pipe = true) (hs : s.surface_flags &&& SDL_TRIPLEBUF = 0) :
    (KMSDRM_FlipSeq s outcomes).2.1 = List.replicate outcomes.length 1 ∧
    (KMSDRM_FlipSeq s outcomes).2.2 = 0 ∧
    (KMSDRM_FlipSeq s outcomes).1.active_pipe = s.active_pipe ∧
    (KMSDRM_FlipSeq s outcomes).1.surface_flags = s.surface_flags ∧
    (KMSDRM_FlipSeq s outcomes).1.queued = s.queued ∧
    ((KMSDRM_FlipSeq s outcomes).1.front = s.front ∧
       (KMSDRM_FlipSeq s outcomes).1.back = s.back ∨
     (KMSDRM_FlipSeq s outcomes).1.front = s.back ∧
       (KMSDRM_FlipSeq s outcomes).1.back = s.front) := by
  induction outcomes generalizing s with
  | nil => simp [KMSDRM_FlipSeq]
  | cons ok rest ih =>
    have hstep := flip_single_buffer_step s ok hp hs
    obtain ⟨h1, h2, h3, h4, h5, h6⟩ :=
      ih { s with front := s.back, back := s.front, pixels := s.front,
                  mutex_locks := s.mutex_locks + 1 } hp hs
    refine ⟨?_, ?_, ?_, ?_, ?_, ?_⟩
    · simp [KMSDRM_FlipSeq, hstep, h1, List.replicate_succ]
    · simp [KMSDRM_FlipSeq, hstep, h2]
    · simpa [KMSDRM_FlipSeq, hstep] using h3
    · simpa [KMSDRM_FlipSeq, hstep] using h4
    · simpa [KMSDRM_FlipSeq, hstep] using h5
    · rcases h6 with ⟨ha, hb⟩ | ⟨ha, hb⟩
      · exact Or.inr ⟨by simpa [KMSDRM_FlipSeq, hstep] using ha,
                      by simpa [KMSDRM_FlipSeq, hstep] using hb⟩
      · exact Or.inl ⟨by simpa [KMSDRM_FlipSeq, hstep] using ha,
                      by simpa [KMSDRM_FlipSeq, hstep] using hb⟩

/-- Witness for C5: two consecutive single-buffer flips at a concrete
state. -/
theorem KMSDRM_flip_single_buffer_pure_swap_witness :
    flipSingleState.active_pipe = true ∧
    flipSingleState.surface_flags &&& SDL_TRIPLEBUF = 0 ∧
    ((KMSDRM_FlipSeq flipSingleState [true, false]).2.1 =
       List.replicate [true, false].length 1 ∧
     (KMSDRM_FlipSeq flipSingleState [true, false]).2.2 = 0 ∧
     (KMSDRM_FlipSeq flipSingleState [true, false]).1.active_pipe =
       flipSingleState.active_pipe ∧
     (KMSDRM_FlipSeq flipSingleState [true, false]).1.surface_flags =
       flipSingleState.surface_flags ∧
     (KMSDRM_FlipSeq flipSingleState [true, false]).1.queued = flipSingleState.queued ∧
     ((KMSDRM_FlipSeq flipSingleState [true, false]).1.front = flipSingleState.front ∧
        (KMSDRM_FlipSeq flipSingleState [true, false]).1.back = flipSingleState.back ∨
      (KMSDRM_FlipSeq flipSingleState [true, false]).1.front = flipSingleState.back ∧
        (KMSDRM_FlipSeq flipSingleState [true, false]).1.back = flipSingleState.front)) :=
  ⟨rfl, by decide,
   KMSDRM_flip_single_buffer_pure_swap flipSingleState [true, false] rfl (by decide)⟩

/-- Helper: the lookup succeeds exactly when the pair is registered. -/
theorem KMSDRM_LookupVidMode_iff (modes : List (Nat × Nat)) (w h : Nat) :
    KMSDRM_LookupVidMode modes w h = true ↔ (w, h) ∈ modes := by
  simp only [KMSDRM_LookupVidMode, List.any_eq_true, Bool.and_eq_true, beq_iff_eq]
  constructor
  · rintro ⟨⟨a, b⟩, hm, rfl, rfl⟩
    exact hm
  · intro hmem
    exact ⟨(w, h), hmem, rfl, rfl⟩

/-- Helper: after registering `(w, h)` it is in the list. -/
theorem mem_KMSDRM_RegisterVidMode_self (modes : List (Nat × Nat)) (w h : Nat) :
    (w, h) ∈ KMSDRM_RegisterVidMode modes w h := by
  unfold KMSDRM_RegisterVidMode
  split
  · next hcond => exact (KMSDRM_LookupVidMode_iff _ _ _).1 hcond
  · simp

/-- Helper: registration never drops existing entries. -/
theorem mem_KMSDRM_RegisterVidMode_mono (modes : List (Nat × Nat)) (w h : Nat)
    (x : Nat × Nat) (hx : x ∈ modes) : x ∈ KMSDRM_RegisterVidMode modes w h := by
  unfold KMSDRM_RegisterVidMode
  split
  · exact hx
  · simp [hx]

/-- Helper: registration preserves the no-duplicates invariant. -/
theorem KMSDRM_RegisterVidMode_nodup (modes : List (Nat × Nat)) (w h : Nat)
    (hn : modes.Nodup) : (KMSDRM_RegisterVidMode modes w h).Nodup := by
  unfold KMSDRM_RegisterVidMode
  split
  · exact hn
  · next hcond =>
    have hnmem : (w, h) ∉ modes := by
      intro hmem
      simp [(KMSDRM_LookupVidMode_iff modes w h).2 hmem] at hcond
    rw [List.nodup_append]
    refine ⟨hn, by simp, ?_⟩
    intro a ha hb
    simp only [List.mem_singleton] at hb
    subst hb
    exact hnmem ha

/-- Helper: the per-pipe registration loop never drops existing entries. -/
theorem save_drm_pipe_modes_mono (fw fh : Nat) :
    ∀ (cm : List ModeInfo) (acc : List (Nat × Nat)) (x : Nat × Nat),
      x ∈ acc → x ∈ save_drm_pipe_modes acc cm fw fh := by
  intro cm
  induction cm with
  | nil => intro acc x hx; simpa [save_drm_pipe_modes] using hx
  | cons m rest ih =>
    intro acc x hx
    simp only [save_drm_pipe_modes]
    apply ih
    split
    · exact mem_KMSDRM_RegisterVidMode_mono _ _ _ _
        (mem_KMSDRM_RegisterVidMode_mono _ _ _ _ hx)
    · exact mem_KMSDRM_RegisterVidMode_mono _ _ _ _ hx

/-- Helper: the per-pipe registration loop preserves no-duplicates. -/
theorem save_drm_pipe_modes_nodup (fw fh : Nat) :
    ∀ (cm : List ModeInfo) (acc : List (Nat × Nat)),
      acc.Nodup → (save_drm_pipe_modes acc cm fw fh).Nodup := by
  intro cm
  induction cm with
  | nil => intro acc h; simpa [save_drm_pipe_modes] using h
  | cons m rest ih =>
    intro acc h
    simp only [save_drm_pipe_modes]
    apply ih
    split
    · exact KMSDRM_RegisterVidMode_nodup _ _ _ (KMSDRM_RegisterVidMode_nodup _ _ _ h)
    · exact KMSDRM_RegisterVidMode_nodup _ _ _ h

/-- Helper: every connector mode's resolution is registered. -/
theorem save_drm_pipe_modes_mem (fw fh : Nat) :
    ∀ (cm : List ModeInfo) (acc : List (Nat × Nat)) (m : ModeInfo),
      m ∈ cm → (m.hdisplay, m.vdisplay) ∈ save_drm_pipe_modes acc cm fw fh := by
  intro cm
  induction cm with
  | nil => intro acc m hm; simp at hm
  | cons m0 rest ih =>
    intro acc m hm
    rcases List.mem_cons.1 hm with rfl | hm
    · simp only [save_drm_pipe_modes]
      apply save_drm_pipe_modes_mono
      split
      · exact mem_KMSDRM_RegisterVidMode_mono _ _ _ _
          (mem_KMSDRM_RegisterVidMode_self _ _ _)
      · exact mem_KMSDRM_RegisterVidMode_self _ _ _
    · simp only [save_drm_pipe_modes]
      exact ih _ m hm

/-- Helper: with a factor different from 1 the corrected resolution is
registered as well. -/
theorem save_drm_pipe_modes_mem_corrected (fw fh : Nat) (hf : fw ≠ 1 ∨ fh ≠ 1) :
    ∀ (cm : List ModeInfo) (acc : List (Nat × Nat)) (m : ModeInfo),
      m ∈ cm →
      (m.hdisplay / fw, m.vdisplay / fh) ∈ save_drm_pipe_modes acc cm fw fh := by
  have hcond : (fw != 1 || fh != 1) = true := by
    rcases hf with h | h <;> simp [h]
  intro cm
  induction cm with
  | nil => intro acc m hm; simp at hm
  | cons m0 rest ih =>
    intro acc m hm
    rcases List.mem_cons.1 hm with rfl | hm
    · simp only [save_drm_pipe_modes, hcond, if_pos]
      exact save_drm_pipe_modes_mono _ _ _ _ _
        (mem_KMSDRM_RegisterVidMode_self _ _ _)
    · simp only [save_drm_pipe_modes]
      exact ih _ m hm

/-- Helper: accumulated registration over pipes never drops entries. -/
theorem KMSDRM_vid_modes_from_mono :
    ∀ (pipes : List drm_pipe) (acc : List (Nat × Nat)) (x : Nat × Nat),
      x ∈ acc → x ∈ KMSDRM_vid_modes_from acc pipes := by
  intro pipes
  induction pipes with
  | nil => intro acc x hx; simpa [KMSDRM_vid_modes_from] using hx
  | cons p rest ih =>
    intro acc x hx
    simp only [KMSDRM_vid_modes_from]
    exact ih _ x (save_drm_pipe_modes_mono _ _ _ _ _ hx)

/-- Helper: accumulated registration over pipes preserves no-duplicates. -/
theorem KMSDRM_vid_modes_from_nodup :
    ∀ (pipes : List drm_pipe) (acc : List (Nat × Nat)),
      acc.Nodup → (KMSDRM_vid_modes_from acc pipes).Nodup := by
  intro pipes
  induction pipes with
  | nil => intro acc h; simpa [KMSDRM_vid_modes_from] using h
  | cons p rest ih =>
    intro acc h
    simp only [KMSDRM_vid_modes_from]
    exact ih _ (save_drm_pipe_modes_nodup _ _ _ _ h)

/-- C7 (amended): the synthesized video-mode list contains no duplicate
`(w, h)` pair, contains every connector mode's
`(hdisplay, vdisplay)`, and — when a pipe's aspect-correction factor
differs from 1 — also the corrected resolution
`(hdisplay/factor_w, vdisplay/factor_h)`.  (It is in first-registration
order, not sorted by pixel count.) -/
theorem KMSDRM_vid_modes_amended (pipes : List drm_pipe) :
    (KMSDRM_vid_modes pipes).Nodup ∧
    (∀ p ∈ pipes, ∀ m ∈ p.modes,
      (m.hdisplay, m.vdisplay) ∈ KMSDRM_vid_modes pipes ∧
      ((p.factor_w ≠ 1 ∨ p.factor_h ≠ 1) →
        (m.hdisplay / p.factor_w, m.vdisplay / p.factor_h) ∈ KMSDRM_vid_modes pipes)) := by
  constructor
  · exact KMSDRM_vid_modes_from_nodup pipes [] (by simp)
  · have key : ∀ (ps : List drm_pipe) (acc : List (Nat × Nat)),
        ∀ p ∈ ps, ∀ m ∈ p.modes,
          (m.hdisplay, m.vdisplay) ∈ KMSDRM_vid_modes_from acc ps ∧
          ((p.factor_w ≠ 1 ∨ p.factor_h ≠ 1) →
            (m.hdisplay / p.factor_w, m.vdisplay / p.factor_h) ∈
              KMSDRM_vid_modes_from acc ps) := by
      intro ps
      induction ps with
      | nil => intro acc p hp; simp at hp
      | cons p0 rest ih =>
        intro acc p hp m hm
        rcases List.mem_cons.1 hp with rfl | hp
        · simp only [KMSDRM_vid_modes_from]
          constructor
          · exact KMSDRM_vid_modes_from_mono rest _ _
              (save_drm_pipe_modes_mem _ _ _ _ m hm)
          · intro hf
            exact KMSDRM_vid_modes_from_mono rest _ _
              (save_drm_pipe_modes_mem_corrected _ _ hf _ _ m hm)
        · simp only [KMSDRM_vid_modes_from]
          exact ih _ p hp m hm
    exact key pipes []

/-- Witness for C7 (amended) with one square-pixel pipe and one pipe
with `factor_w = 2`. -/
theorem KMSDRM_vid_modes_amended_witness :
    (320, 240) ∈ KMSDRM_vid_modes [c7pipe, c7pipeFactor] ∧
    (640, 480) ∈ KMSDRM_vid_modes [c7pipe, c7pipeFactor] ∧
    (320, 480) ∈ KMSDRM_vid_modes [c7pipe, c7pipeFactor] := by
  have h := KMSDRM_vid_modes_amended [c7pipe, c7pipeFactor]
  have h1 := h.2 c7pipe (by simp) ⟨0, 320, 240, 0, 0⟩ (by simp [c7pipe])
  have h2 := h.2 c7pipeFactor (by simp) ⟨0, 640, 480, 0, 0⟩ (by simp [c7pipeFactor])
  exact ⟨h1.1, h2.1, by simpa [c7pipeFactor] using h2.2 (Or.inl (by decide))⟩

/-- C4 (amended): pipe discovery does not filter planes by type — its
result is invariant under arbitrarily rewriting every plane's cached
`type` property value (so overlay planes are registered like any other),
and every registered pipe comes from a quadruple satisfying exactly the
`possible_crtcs`/encoder/connected/mode-count conditions of
`pipe_condition`, with no condition on the plane's type. -/
theorem KMSDRM_discovery_ignores_plane_type :
    (∀ (res : DrmResources) (f : drm_plane_obj → Nat),
      KMSDRM_discover_pipes (retypePlanes res f) = KMSDRM_discover_pipes res) ∧
    (∀ (res : DrmResources) (q : SavedPipe), q ∈ KMSDRM_discover_pipes res →
      ∃ p ∈ res.planes, ∃ ic ∈ res.crtcs.enum, ∃ e ∈ res.encoders,
        ∃ c ∈ res.connectors,
          pipe_condition p ic.1 e c = true ∧
          q = { plane := p.plane_id, crtc := ic.2.crtc_id,
                encoder := e.encoder_id, connector := c.connector_id }) := by
  constructor
  · intro res f
    simp only [KMSDRM_discover_pipes, retypePlanes]
    induction res.planes with
    | nil => rfl
    | cons p ps ih =>
      simp only [List.map_cons, List.flatMap_cons] at ih ⊢
      rw [ih]
      rfl
  · intro res q hq
    simp only [KMSDRM_discover_pipes, List.mem_flatMap, List.mem_filterMap] at hq
    obtain ⟨p, hp, ic, hic, e, he, c, hc, hcond⟩ := hq
    by_cases h : pipe_condition p ic.1 e c = true
    · refine ⟨p, hp, ic, hic, e, he, c, hc, h, ?_⟩
      rw [if_pos h] at hcond
      exact (Option.some.inj hcond).symm
    · rw [if_neg h] at hcond
      exact absurd hcond (by simp)

/-- Witness for C4 (amended): the overlay-plane world registers the pipe
`(77, 5, 9, 13)`, produced by a quadruple satisfying `pipe_condition`. -/
theorem KMSDRM_discovery_ignores_plane_type_witness :
    ∃ p ∈ overlayRes.planes, ∃ ic ∈ overlayRes.crtcs.enum, ∃ e ∈ overlayRes.encoders,
      ∃ c ∈ overlayRes.connectors,
        pipe_condition p ic.1 e c = true ∧
        (⟨77, 5, 9, 13⟩ : SavedPipe) =
          { plane := p.plane_id, crtc := ic.2.crtc_id, encoder := e.encoder_id, connector := c.connector_id } :=
  KMSDRM_discovery_ignores_plane_type.2 overlayRes ⟨77, 5, 9, 13⟩ (by decide)

/-- Helper: invariants of the modeset retry loop.  Entering with no
active pipe, no template and no live mode blob: if the loop exits by
`break` (commit success) the template and blob are live and a pipe is
active; if it exits through a goto, the buffers are cleared, blob and
template are released, and — except for a `KMSDRM_SetCrtcParams`
failure — the active pipe is null. -/
theorem svmLoop_spec (w : SvmWorld) (bpp : Nat) :
    ∀ (rest : List drm_pipe) (k : Nat) (st : SvmState),
      st.active_pipe = none → st.drm_req = false → st.mode_blob = false →
      ((svmLoop w bpp rest k st).2 = none →
        (svmLoop w bpp rest k st).1.drm_req = true ∧
        (svmLoop w bpp rest k st).1.mode_blob = true ∧
        (svmLoop w bpp rest k st).1.active_pipe ≠ none) ∧
      (∀ o, (svmLoop w bpp rest k st).2 = some o →
        (svmLoop w bpp rest k st).1.buffers = clearedBuffers ∧
        (svmLoop w bpp rest k st).1.mode_blob = false ∧
        (svmLoop w bpp rest k st).1.drm_req = false ∧
        (o ≠ SvmOutcome.crtcParamsFail →
          (svmLoop w bpp rest k st).1.active_pipe = none)) := by
  intro rest
  induction rest with
  | nil =>
    intro k st hp hr hb
    constructor
    · intro hnone
      simp [svmLoop] at hnone
    · intro o ho
      simp only [svmLoop, Option.some.injEq] at ho
      subst ho
      simp [svmLoop, hp, hr, hb]
  | cons p rest ih =>
    intro k st hp hr hb
    by_cases h1 : (disableOthersOk w k p && add_property w p.connector "CRTC_ID" &&
        add_property w p.crtc "MODE_ID" && add_property w p.crtc "ACTIVE") = true
    · by_cases h2 : (add_property w p.plane "FB_ID" && add_property w p.plane "CRTC_ID" &&
          add_property w p.plane "SRC_X" && add_property w p.plane "SRC_Y" &&
          add_property w p.plane "SRC_W" && add_property w p.plane "SRC_H") = true
      · by_cases h3 : KMSDRM_SetCrtcParams w p.plane p.crtc bpp = true
        · constructor
          · intro hnone
            simp [svmLoop, h1, h2, h3] at hnone
          · intro o ho
            simp only [svmLoop, h1, h2, h3, Bool.not_true, Bool.false_eq_true, if_false,
              if_true, Option.some.injEq] at ho
            subst ho
            simp [svmLoop, h1, h2, h3]
        · by_cases h4 : w.commitOk k = true
          · constructor
            · intro _
              simp [svmLoop, h1, h2, h3, h4]
            · intro o ho
              simp [svmLoop, h1, h2, h3, h4] at ho
          · have hrec := ih (k + 1)
              { st with mode_blob := false, drm_req := false, active_pipe := none }
              rfl rfl rfl
            simpa [svmLoop, h1, h2, h3, h4] using hrec
      · simp only [Bool.not_eq_true] at h2
        constructor
        · intro hnone
          simp [svmLoop, h1, h2] at hnone
        · intro o ho
          simp only [svmLoop, h1, h2, Bool.not_true, Bool.not_false, Bool.false_eq_true,
            if_false, if_true, Option.some.injEq] at ho
          subst ho
          simp [svmLoop, h1, h2, hp]
    · simp only [Bool.not_eq_true] at h1
      constructor
      · intro hnone
        simp [svmLoop, h1] at hnone
      · intro o ho
        simp only [svmLoop, h1, Bool.not_true, Bool.not_false, Bool.false_eq_true,
          if_false, if_true, Option.some.injEq] at ho
        subst ho
        simp [svmLoop, h1, hp, hr]

/-- Helper: the unwind guarantees of everything after the index reset,
assuming the state at that point is fully clean. -/
theorem KMSDRM_SetVideoMode_body_spec (st2 : SvmState) (w : SvmWorld) (bpp flags : Nat)
    (h1 : st2.active_pipe = none) (h2 : st2.mode_blob = false) (h3 : st2.drm_req = false)
    (h4 : st2.buffers = clearedBuffers) :
    (KMSDRM_SetVideoMode_body st2 w bpp flags).2 ≠ SvmOutcome.success →
      (KMSDRM_SetVideoMode_body st2 w bpp flags).1.buffers = clearedBuffers ∧
      ((KMSDRM_SetVideoMode_body st2 w bpp flags).2 ≠ SvmOutcome.reallocFail →
        (KMSDRM_SetVideoMode_body st2 w bpp flags).1.mode_blob = false ∧
        (KMSDRM_SetVideoMode_body st2 w bpp flags).1.drm_req = false) ∧
      ((KMSDRM_SetVideoMode_body st2 w bpp flags).2 ≠ SvmOutcome.reallocFail →
        (KMSDRM_SetVideoMode_body st2 w bpp flags).2 ≠ SvmOutcome.crtcParamsFail →
        (KMSDRM_SetVideoMode_body st2 w bpp flags).1.active_pipe = none) := by
  simp only [KMSDRM_SetVideoMode_body]
  split
  · exact fun _ => ⟨h4, fun _ => ⟨h2, h3⟩, fun _ _ => h1⟩
  · split
    · exact fun _ => ⟨rfl, fun _ => ⟨h2, h3⟩, fun _ _ => h1⟩
    · next bufs hbufs =>
      split
      · next st o hloop =>
        intro _
        have hspec := (svmLoop_spec w bpp w.pipes 0 { st2 with buffers := bufs }
          h1 h3 h2).2 o (by rw [hloop])
        rw [hloop] at hspec
        exact ⟨hspec.1, fun _ => ⟨hspec.2.1, hspec.2.2.1⟩,
               fun _ hne => hspec.2.2.2 hne⟩
      · next st hloop =>
        split
        · intro hfail
          exact absurd rfl hfail
        · intro _
          exact ⟨rfl, fun hne => absurd rfl hne, fun hne _ => absurd rfl hne⟩

/-- C2 (amended): whenever `SetVideoMode` returns null, every buffer slot
is cleared; moreover, unless the failure is the post-commit
`SDL_ReallocFormat` failure, the mode blob is destroyed and the cached
request template is freed and null; and unless the failure is the
`SDL_ReallocFormat` failure or a `KMSDRM_SetCrtcParams` failure, the
active-pipe pointer is null.  (The counterexample shows the two excluded
paths really leak: a post-commit `SDL_ReallocFormat` failure leaves the
pipe, blob and template live, and a `KMSDRM_SetCrtcParams` failure leaves
the active-pipe pointer set.)  The `hinv` hypothesis is the call-site
invariant: after `VideoInit` and after any previous call, a null active
pipe comes with cleared buffers and no live blob or template. -/
theorem KMSDRM_SetVideoMode_unwind_amended (st0 : SvmState) (w : SvmWorld) (bpp flags : Nat)
    (hinv : st0.active_pipe = none →
      st0.buffers = clearedBuffers ∧ st0.mode_blob = false ∧ st0.drm_req = false)
    (hfail : (KMSDRM_SetVideoMode st0 w bpp flags).2 ≠ SvmOutcome.success) :
    (KMSDRM_SetVideoMode st0 w bpp flags).1.buffers = clearedBuffers ∧
    ((KMSDRM_SetVideoMode st0 w bpp flags).2 ≠ SvmOutcome.reallocFail →
      (KMSDRM_SetVideoMode st0 w bpp flags).1.mode_blob = false ∧
      (KMSDRM_SetVideoMode st0 w bpp flags).1.drm_req = false) ∧
    ((KMSDRM_SetVideoMode st0 w bpp flags).2 ≠ SvmOutcome.reallocFail →
      (KMSDRM_SetVideoMode st0 w bpp flags).2 ≠ SvmOutcome.crtcParamsFail →
      (KMSDRM_SetVideoMode st0 w bpp flags).1.active_pipe = none) := by
  by_cases hap : st0.active_pipe.isSome = true
  · simp only [KMSDRM_SetVideoMode, hap, if_true] at hfail ⊢
    exact KMSDRM_SetVideoMode_body_spec _ w bpp flags rfl rfl rfl rfl hfail
  · have hnone : st0.active_pipe = none := by
      cases ho : st0.active_pipe with
      | none => rfl
      | some _ => rw [ho] at hap; simp at hap
    obtain ⟨hb, hm, hr⟩ := hinv hnone
    simp only [KMSDRM_SetVideoMode, hap, Bool.false_eq_true, if_false] at hfail ⊢
    exact KMSDRM_SetVideoMode_body_spec _ w bpp flags hnone hm hr hb hfail

/-- Witness for C2 (amended): a clean initial state with one pipe whose
commit always fails — the call fails with `noPipe` and the unwind
conclusions hold. -/
theorem KMSDRM_SetVideoMode_unwind_amended_witness :
    (stClean.active_pipe = none →
      stClean.buffers = clearedBuffers ∧ stClean.mode_blob = false ∧
      stClean.drm_req = false) ∧
    (KMSDRM_SetVideoMode stClean wNoCommit 16 0).2 ≠ SvmOutcome.success ∧
    ((KMSDRM_SetVideoMode stClean wNoCommit 16 0).1.buffers = clearedBuffers ∧
     ((KMSDRM_SetVideoMode stClean wNoCommit 16 0).2 ≠ SvmOutcome.reallocFail →
       (KMSDRM_SetVideoMode stClean wNoCommit 16 0).1.mode_blob = false ∧
       (KMSDRM_SetVideoMode stClean wNoCommit 16 0).1.drm_req = false) ∧
     ((KMSDRM_SetVideoMode stClean wNoCommit 16 0).2 ≠ SvmOutcome.reallocFail →
       (KMSDRM_SetVideoMode stClean wNoCommit 16 0).2 ≠ SvmOutcome.crtcParamsFail →
       (KMSDRM_SetVideoMode stClean wNoCommit 16 0).1.active_pipe = none)) :=
  ⟨by decide, by decide,
   KMSDRM_SetVideoMode_unwind_amended stClean wNoCommit 16 0 (by decide) (by decide)⟩
